import Mathlib

/-!
Verification of the CoinGuard risk-scoring and watch-rule evaluation engine.

The definitions below are a shallow embedding of the TypeScript source:
JavaScript numbers are modelled as exact rationals (ℚ), arrays as lists,
nullable or possibly-undefined fields as `Option`, and `Math.round` as
`jsRound` (floor of x + 1/2, the JavaScript tie-toward-positive-infinity
rounding).  Each definition mirrors one function of the source files
`services/geminiService.ts` and the watch service module.
-/

namespace CoinGuard

/-- Per-asset news counters of a signal snapshot (`AnalysisStats.news`). -/
structure NewsStats where
  negativeCount : ℚ
  totalCount : ℚ
  riskTags : List String
deriving DecidableEq, Repr

/-- Per-asset social counters of a signal snapshot (`AnalysisStats.social`). -/
structure SocialStats where
  negativeCount : ℚ
  totalCount : ℚ
deriving DecidableEq, Repr

/-- Per-asset on-chain metrics of a signal snapshot (`AnalysisStats.onChain`). -/
structure OnChainStats where
  netflowPercent : ℚ
  activeAddressChange : ℚ
deriving DecidableEq, Repr

/-- The signal snapshot consumed by the scoring engine (`AnalysisStats`). -/
structure AnalysisStats where
  news : NewsStats
  social : SocialStats
  onChain : OnChainStats
deriving DecidableEq, Repr

/-- Weight table for news risk tags; an unknown tag weighs 10
(`tagWeights[tag] || 10` in `calculateRiskScore`). -/
def tagWeight (tag : String) : ℚ :=
  if tag = "hack" then 40
  else if tag = "exploit" then 40
  else if tag = "fraud" then 35
  else if tag = "market_crash" then 30
  else if tag = "exchange_issue" then 25
  else if tag = "regulation" then 20
  else if tag = "lawsuit" then 20
  else if tag = "technical" then 15
  else 10

/-- Maximum tag weight over the risk-tag list, accumulated exactly as the
source `forEach` loop does starting from 0. -/
def maxTagWeight (tags : List String) : ℚ :=
  tags.foldl (fun acc tag => if tagWeight tag > acc then tagWeight tag else acc) 0

/-- News negative-sentiment contribution: negative ratio times 60, with the
ratio taken as 0 when `totalCount` is not positive. -/
def negScore (s : AnalysisStats) : ℚ :=
  (if s.news.totalCount > 0 then s.news.negativeCount / s.news.totalCount else 0) * 60

/-- Risk tag strength: `min(40, maxTagWeight * (1 + (tagCount - 1) * 0.1))`. -/
def riskTagStrength (s : AnalysisStats) : ℚ :=
  min 40 (maxTagWeight s.news.riskTags * (1 + ((s.news.riskTags.length : ℚ) - 1) * (1/10)))

/-- News sub-score: negative contribution plus the tag strength when any
risk tag is present. -/
def newsScore (s : AnalysisStats) : ℚ :=
  negScore s + (if s.news.riskTags.length > 0 then riskTagStrength s else 0)

/-- Social sub-score: negative ratio times 100, ratio 0 when `totalCount`
is not positive. -/
def socialScore (s : AnalysisStats) : ℚ :=
  (if s.social.totalCount > 0 then s.social.negativeCount / s.social.totalCount else 0) * 100

/-- Netflow step function of `calculateRiskScore` (net inflow is riskier). -/
def nfScore (nf : ℚ) : ℚ :=
  if nf ≥ 30 then 100
  else if nf ≥ 20 then 80
  else if nf ≥ 10 then 60
  else if nf ≥ 0 then 40
  else if nf ≥ -10 then 30
  else if nf ≥ -20 then 20
  else 10

/-- Active-address step function of `calculateRiskScore` (a drop is riskier). -/
def aaScore (aa : ℚ) : ℚ :=
  if aa ≤ -20 then 100
  else if aa ≤ -10 then 70
  else if aa ≤ 0 then 50
  else if aa ≤ 10 then 40
  else if aa ≤ 20 then 30
  else 20

/-- On-chain sub-score: `netflowScore * 0.6 + activeAddressScore * 0.4`. -/
def onChainScore (s : AnalysisStats) : ℚ :=
  nfScore s.onChain.netflowPercent * (6/10) + aaScore s.onChain.activeAddressChange * (4/10)

/-- Composite pre-rounding score: `news * 0.4 + social * 0.3 + onChain * 0.3`. -/
def totalScore (s : AnalysisStats) : ℚ :=
  newsScore s * (4/10) + socialScore s * (3/10) + onChainScore s * (3/10)

/-- JavaScript `Math.round`: floor of x + 1/2 (ties round toward +infinity). -/
def jsRound (q : ℚ) : ℤ :=
  ⌊q + 1/2⌋

/-- The risk scoring engine `calculateRiskScore`: rounded composite score and
risk level string; the level thresholds are applied to the unrounded total,
exactly as in the source. -/
def calculateRiskScore (s : AnalysisStats) : ℤ × String :=
  let total := totalScore s
  (jsRound total,
   if total ≥ 70 then "HIGH" else if total ≥ 40 then "MEDIUM" else "LOW")

/-- The snapshot of the worked spec example. -/
def exampleStats : AnalysisStats :=
  { news := { negativeCount := 40, totalCount := 100, riskTags := ["hack"] }
    social := { negativeCount := 10, totalCount := 50 }
    onChain := { netflowPercent := 25, activeAddressChange := -25 } }

/-- Watch condition categories (`WatchConditionType`). -/
inductive WatchConditionType
  | news_risk_tag
  | social_negative
  | onchain_netflow
  | onchain_active_address
  | price_change
  | risk_score
  | risk_level
deriving DecidableEq, Repr

/-- Comparison operators of a watch condition (`WatchOperator`). -/
inductive WatchOperator
  | gt
  | lt
  | ge
  | le
  | eq
deriving DecidableEq, Repr

/-- A condition threshold: a number, or a risk-level string for
`risk_level` conditions (`value: number | string`). -/
inductive WatchValue
  | num (q : ℚ)
  | str (s : String)
deriving DecidableEq, Repr

/-- The threshold read as a number (`condition.value as number`); the
TypeScript types guarantee that numeric condition kinds carry a number. -/
def WatchValue.asNumber : WatchValue → ℚ
  | .num q => q
  | .str _ => 0

/-- The threshold read as a string (`condition.value as string`); the
TypeScript types guarantee that `risk_level` conditions carry a string. -/
def WatchValue.asString : WatchValue → String
  | .num _ => ""
  | .str s => s

/-- A single watch condition (`WatchCondition`). -/
structure WatchCondition where
  type : WatchConditionType
  operator : WatchOperator
  value : WatchValue
  riskTag : Option String
deriving DecidableEq, Repr

/-- The per-asset analysis record read by the watch evaluator
(`AIAnalysisResult`); fields checked for absence at runtime are `Option`. -/
structure AIAnalysisResult where
  marketPhase : String
  riskLevel : Option String
  riskScore : Option ℚ
  stats : Option AnalysisStats
deriving DecidableEq, Repr

/-- The per-asset state a rule is evaluated against (`CoinData`, the
fields the watch service reads). -/
structure CoinData where
  symbol : String
  name : String
  change24h : Option ℚ
  analysis : Option AIAnalysisResult
deriving DecidableEq, Repr

/-- A watch rule (`WatchRule`).  `lastTriggered` is modelled as a
millisecond timestamp (the source stores an ISO string and converts it
back with `Date.getTime`). -/
structure WatchRule where
  id : String
  name : String
  enabled : Bool
  coinSymbols : Option (List String)
  conditions : List WatchCondition
  createdAt : String
  lastTriggered : Option ℚ
deriving DecidableEq, Repr

/-- Value comparison helper `compareValues`; equality uses the 0.01
floating-point tolerance of the source. -/
def compareValues (actual : ℚ) (op : WatchOperator) (target : ℚ) : Bool :=
  match op with
  | .gt => decide (actual > target)
  | .lt => decide (actual < target)
  | .ge => decide (actual ≥ target)
  | .le => decide (actual ≤ target)
  | .eq => decide (|actual - target| < 1/100)

/-- Risk level to ordinal conversion `getRiskLevelValue`. -/
def getRiskLevelValue (level : String) : ℚ :=
  if level = "LOW" then 1
  else if level = "MEDIUM" then 2
  else if level = "HIGH" then 3
  else if level = "EXTREME" then 4
  else 0

/-- Single condition evaluation `checkCondition`.  The leading guard of
the source returns false when the analysis or its stats are absent; the
falsy checks on the strings `riskTag` and `riskLevel` are mirrored as
explicit empty-string tests. -/
def checkCondition (condition : WatchCondition) (coin : CoinData) : Bool :=
  match coin.analysis with
  | none => false
  | some analysis =>
    match analysis.stats with
    | none => false
    | some stats =>
      match condition.type with
      | .news_risk_tag =>
        match condition.riskTag with
        | none => false
        | some tag =>
          if tag = "" then false
          else if stats.news.riskTags.length = 0 then false
          else stats.news.riskTags.contains tag
      | .social_negative =>
        if stats.social.totalCount = 0 then false
        else
          compareValues (stats.social.negativeCount / stats.social.totalCount * 100)
            condition.operator condition.value.asNumber
      | .onchain_netflow =>
        compareValues stats.onChain.netflowPercent condition.operator condition.value.asNumber
      | .onchain_active_address =>
        compareValues stats.onChain.activeAddressChange condition.operator
          condition.value.asNumber
      | .price_change =>
        match coin.change24h with
        | none => false
        | some c => compareValues c condition.operator condition.value.asNumber
      | .risk_score =>
        match analysis.riskScore with
        | none => false
        | some sc =>
          if sc = -1 then false
          else compareValues sc condition.operator condition.value.asNumber
      | .risk_level =>
        match analysis.riskLevel with
        | none => false
        | some lvl =>
          if lvl = "" then false
          else if lvl = "LOW" ∧ analysis.riskScore = some (-1) then false
          else
            compareValues (getRiskLevelValue lvl) condition.operator
              (getRiskLevelValue condition.value.asString)

/-- The asset-scope filter of `checkWatchConditions` (a truthy, non-empty
`coinSymbols` array that does not contain the symbol excludes the asset). -/
def scopeExcludes (coinSymbols : Option (List String)) (symbol : String) : Bool :=
  match coinSymbols with
  | some syms => syms.length > 0 && !(syms.contains symbol)
  | none => false

/-- Rule matching `checkWatchConditions`: disabled rules and rules with an
empty condition list never match; all conditions are AND-combined. -/
def checkWatchConditions (rule : WatchRule) (coin : CoinData) : Bool :=
  if rule.enabled = false then false
  else if scopeExcludes rule.coinSymbols coin.symbol then false
  else if rule.conditions.length = 0 then false
  else rule.conditions.all fun condition => checkCondition condition coin

/-- De-duplication test of `checkAllWatchRules`: a rule is suppressed when
fewer than 60 seconds have passed since its last trigger (the source
computes `(now - lastTriggered) / (1000 * 60) < 1` in minutes). -/
def cooldownSuppressed (lastTriggered : Option ℚ) (now : ℚ) : Bool :=
  match lastTriggered with
  | none => false
  | some t => decide ((now - t) / (1000 * 60) < 1)

/-- One rule/asset step of `checkAllWatchRules`: when the conditions match
and the cooldown window has expired, `triggerNotification` emits a
notification and stores `now` as the `lastTriggered` of the rule.  The Boolean
records whether a notification was emitted, and the returned rule carries
the updated trigger timestamp. -/
def checkRuleForCoin (rule : WatchRule) (coin : CoinData) (now : ℚ) :
    Bool × WatchRule :=
  if checkWatchConditions rule coin then
    if cooldownSuppressed rule.lastTriggered now then (false, rule)
    else (true, { rule with lastTriggered := some now })
  else (false, rule)

/-- One sentiment bucket of an upstream stats response. -/
structure SentimentStat where
  sentiment : String
  count : ℚ
deriving DecidableEq, Repr

/-- Upstream sentiment stats response (`SentimentStatsResponse`, the
fields `analyzeCoinSignal` reads). -/
structure SentimentStatsResponse where
  total : ℚ
  stats : List SentimentStat
deriving DecidableEq, Repr

/-- Upstream risk score response (`RiskScoreResponse`, the fields
`analyzeCoinSignal` reads); the guards in the source treat both fields as
possibly absent. -/
structure RiskScoreResponse where
  overall_risk_score : Option ℚ
  risk_level : Option String
deriving DecidableEq, Repr

/-- CoinGecko market data response (`PriceDataResponse`, the fields
`convertToOnChainMetric` reads). -/
structure CoinMarketData where
  volume_24h_usd : ℚ
  volume_percentage : ℚ
  total_market_volume_usd : ℚ
  price_usd : ℚ
deriving DecidableEq, Repr

/-- The on-chain metric record built by `convertToOnChainMetric`. -/
structure OnChainMetric where
  volume_24h_usd : ℚ
  volume_percentage : ℚ
  total_market_volume_usd : ℚ
  price_usd : ℚ
  netflow : Option ℚ
  activeAddresses : Option ℚ
deriving DecidableEq, Repr

/-- `convertToOnChainMetric`: passes the CoinGecko fields through, uses the
volume percentage as the netflow and produces no active-address count. -/
def convertToOnChainMetric (m : CoinMarketData) : OnChainMetric :=
  { volume_24h_usd := m.volume_24h_usd
    volume_percentage := m.volume_percentage
    total_market_volume_usd := m.total_market_volume_usd
    price_usd := m.price_usd
    netflow := some m.volume_percentage
    activeAddresses := none }

/-- The negative bucket count of a sentiment response
(`stats.find(s => s.sentiment === "negative")?.count || 0`). -/
def negativeCountOf (resp : SentimentStatsResponse) : ℚ :=
  (((resp.stats.find? fun st => st.sentiment == "negative").map SentimentStat.count).getD 0)

/-- Level derived from a numeric score, the fallback of `analyzeCoinSignal`
when the upstream response carries no level. -/
def levelOfScore (sc : ℚ) : String :=
  if sc ≥ 70 then "HIGH" else if sc ≥ 40 then "MEDIUM" else "LOW"

/-- The deterministic core of `analyzeCoinSignal`.  The four upstream fetch
results are inputs, a `none` modelling a failed fetch.  The async narrative
summary from the external GPT collaborator and the constant action-guide
strings are outside the model.  Returns `none` (the unavailable result of
the source, `return null`) exactly when both the news and the social
responses are missing; otherwise it builds the stats snapshot, substituting
zero counts for a missing category, and carries the upstream risk score, or
the -1 sentinel with level defaulted to LOW when no score is available. -/
def analyzeCoinSignal (coin : CoinData)
    (newsStats socialStats : Option SentimentStatsResponse)
    (riskData : Option RiskScoreResponse) (coinMarketData : Option CoinMarketData) :
    Option AIAnalysisResult :=
  if newsStats = none ∧ socialStats = none then none
  else
    let stats : AnalysisStats :=
      { news :=
          match newsStats with
          | some ns =>
            { negativeCount := negativeCountOf ns, totalCount := ns.total, riskTags := [] }
          | none => { negativeCount := 0, totalCount := 0, riskTags := [] }
        social :=
          match socialStats with
          | some ss => { negativeCount := negativeCountOf ss, totalCount := ss.total }
          | none => { negativeCount := 0, totalCount := 0 }
        onChain :=
          match coinMarketData with
          | some m =>
            let metric := convertToOnChainMetric m
            let baseActiveAddresses : ℚ := 10000
            let activeAddresses := metric.activeAddresses.getD baseActiveAddresses
            { netflowPercent := metric.netflow.getD 0
              activeAddressChange :=
                (activeAddresses - baseActiveAddresses) / baseActiveAddresses * 100 }
          | none => { netflowPercent := 0, activeAddressChange := 0 } }
    let overallScore : Option ℚ := riskData.bind fun r => r.overall_risk_score
    let lvl : Option String :=
      match overallScore with
      | some sc =>
        match riskData.bind fun r => r.risk_level with
        | some l => if l = "" then some (levelOfScore sc) else some l
        | none => some (levelOfScore sc)
      | none => none
    let marketPhase : String :=
      match coin.change24h with
      | some c =>
        if c > 5 then "RISING"
        else if c < -5 then "PLUMMETING"
        else if c > 2 then "ACCUMULATION"
        else if c < -2 then "CORRECTION"
        else "STABLE"
      | none => "STABLE"
    some
      { marketPhase := marketPhase
        riskLevel := some (lvl.getD "LOW")
        riskScore := some (overallScore.getD (-1))
        stats := some stats }

/-- C1: on the snapshot with news {neg 40, total 100, tags ["hack"]},
social {neg 10, total 50}, on-chain {netflow 25, activeAddressChange -25},
the engine computes news sub-score 64, social sub-score 20, on-chain
sub-score 88, composite score 58 and level MEDIUM. -/
theorem calculateRiskScore_example_scenario :
    newsScore exampleStats = 64 ∧
    socialScore exampleStats = 20 ∧
    onChainScore exampleStats = 88 ∧
    calculateRiskScore exampleStats = (58, "MEDIUM") := by
  have hn : newsScore exampleStats = 64 := by
    norm_num [newsScore, negScore, riskTagStrength, maxTagWeight, tagWeight, exampleStats]
  have hs : socialScore exampleStats = 20 := by
    norm_num [socialScore, exampleStats]
  have ho : onChainScore exampleStats = 88 := by
    norm_num [onChainScore, nfScore, aaScore, exampleStats]
  have ht : totalScore exampleStats = 58 := by
    rw [totalScore, hn, hs, ho]; norm_num
  refine ⟨hn, hs, ho, ?_⟩
  have hdef : calculateRiskScore exampleStats =
      (jsRound (totalScore exampleStats),
       if totalScore exampleStats ≥ 70 then "HIGH"
       else if totalScore exampleStats ≥ 40 then "MEDIUM" else "LOW") := rfl
  rw [hdef, ht]
  norm_num [jsRound]

/-- The weight of any tag is non-negative (indeed at least 10). -/
theorem tagWeight_nonneg (tag : String) : 0 ≤ tagWeight tag := by
  unfold tagWeight
  split_ifs <;> norm_num

/-- The running maximum in `maxTagWeight` never drops below its seed. -/
theorem maxTagWeight_fold_init_le (l : List String) (acc : ℚ) :
    acc ≤ l.foldl (fun a tag => if tagWeight tag > a then tagWeight tag else a) acc := by
  induction l generalizing acc with
  | nil => simp
  | cons t ts ih =>
      simp only [List.foldl_cons]
      refine le_trans ?_ (ih _)
      split_ifs with h
      · exact le_of_lt h
      · exact le_rfl

/-- The maximum tag weight is non-negative. -/
theorem maxTagWeight_nonneg (l : List String) : 0 ≤ maxTagWeight l :=
  maxTagWeight_fold_init_le l 0

/-- With sound counters, the news negative contribution is within [0, 60]. -/
theorem negScore_bounds (s : AnalysisStats) (h0 : 0 ≤ s.news.negativeCount)
    (h1 : s.news.negativeCount ≤ s.news.totalCount) :
    0 ≤ negScore s ∧ negScore s ≤ 60 := by
  unfold negScore
  split_ifs with ht
  · have hr0 : 0 ≤ s.news.negativeCount / s.news.totalCount := div_nonneg h0 ht.le
    have hr1 : s.news.negativeCount / s.news.totalCount ≤ 1 := (div_le_one ht).mpr h1
    constructor
    · exact mul_nonneg hr0 (by norm_num)
    · linarith
  · norm_num

/-- With at least one risk tag, the risk tag strength is within [0, 40]. -/
theorem riskTagStrength_bounds (s : AnalysisStats) (h : s.news.riskTags.length > 0) :
    0 ≤ riskTagStrength s ∧ riskTagStrength s ≤ 40 := by
  unfold riskTagStrength
  refine ⟨le_min (by norm_num) ?_, min_le_left _ _⟩
  have h1 : (1 : ℚ) ≤ (s.news.riskTags.length : ℚ) := by exact_mod_cast h
  have h2 : (0 : ℚ) ≤ 1 + ((s.news.riskTags.length : ℚ) - 1) * (1/10) := by linarith
  exact mul_nonneg (maxTagWeight_nonneg _) h2

/-- With sound counters, the news sub-score is within [0, 100]. -/
theorem newsScore_bounds (s : AnalysisStats) (h0 : 0 ≤ s.news.negativeCount)
    (h1 : s.news.negativeCount ≤ s.news.totalCount) :
    0 ≤ newsScore s ∧ newsScore s ≤ 100 := by
  unfold newsScore
  obtain ⟨hneg0, hneg1⟩ := negScore_bounds s h0 h1
  split_ifs with h
  · obtain ⟨ht0, ht1⟩ := riskTagStrength_bounds s h
    constructor <;> linarith
  · constructor <;> linarith

/-- With sound counters, the social sub-score is within [0, 100]. -/
theorem socialScore_bounds (s : AnalysisStats) (h0 : 0 ≤ s.social.negativeCount)
    (h1 : s.social.negativeCount ≤ s.social.totalCount) :
    0 ≤ socialScore s ∧ socialScore s ≤ 100 := by
  unfold socialScore
  split_ifs with ht
  · have hr0 : 0 ≤ s.social.negativeCount / s.social.totalCount := div_nonneg h0 ht.le
    have hr1 : s.social.negativeCount / s.social.totalCount ≤ 1 := (div_le_one ht).mpr h1
    constructor
    · exact mul_nonneg hr0 (by norm_num)
    · linarith
  · norm_num

/-- The netflow step score always lies within [10, 100]. -/
theorem nfScore_bounds (x : ℚ) : 10 ≤ nfScore x ∧ nfScore x ≤ 100 := by
  unfold nfScore
  split_ifs <;> norm_num

/-- The active-address step score always lies within [20, 100]. -/
theorem aaScore_bounds (x : ℚ) : 20 ≤ aaScore x ∧ aaScore x ≤ 100 := by
  unfold aaScore
  split_ifs <;> norm_num

/-- The on-chain sub-score always lies within [0, 100]. -/
theorem onChainScore_bounds (s : AnalysisStats) :
    0 ≤ onChainScore s ∧ onChainScore s ≤ 100 := by
  unfold onChainScore
  obtain ⟨hn0, hn1⟩ := nfScore_bounds s.onChain.netflowPercent
  obtain ⟨ha0, ha1⟩ := aaScore_bounds s.onChain.activeAddressChange
  constructor <;> linarith

/-- With sound counters, the pre-rounding composite lies within [0, 100]. -/
theorem totalScore_bounds (s : AnalysisStats)
    (hn0 : 0 ≤ s.news.negativeCount) (hn1 : s.news.negativeCount ≤ s.news.totalCount)
    (hs0 : 0 ≤ s.social.negativeCount) (hs1 : s.social.negativeCount ≤ s.social.totalCount) :
    0 ≤ totalScore s ∧ totalScore s ≤ 100 := by
  unfold totalScore
  obtain ⟨a0, a1⟩ := newsScore_bounds s hn0 hn1
  obtain ⟨b0, b1⟩ := socialScore_bounds s hs0 hs1
  obtain ⟨c0, c1⟩ := onChainScore_bounds s
  constructor <;> linarith

/-- C2: for every snapshot with non-negative counters and
negativeCount ≤ totalCount in both the news and social categories, the
composite score returned by `calculateRiskScore` is an integer (it inhabits
ℤ by construction) in the interval [0, 100]. -/
theorem calculateRiskScore_range (s : AnalysisStats)
    (hn0 : 0 ≤ s.news.negativeCount) (hn1 : s.news.negativeCount ≤ s.news.totalCount)
    (hs0 : 0 ≤ s.social.negativeCount) (hs1 : s.social.negativeCount ≤ s.social.totalCount) :
    0 ≤ (calculateRiskScore s).1 ∧ (calculateRiskScore s).1 ≤ 100 := by
  obtain ⟨ht0, ht1⟩ := totalScore_bounds s hn0 hn1 hs0 hs1
  have h1 : (calculateRiskScore s).1 = jsRound (totalScore s) := rfl
  rw [h1]
  unfold jsRound
  constructor
  · exact Int.le_floor.mpr (by push_cast; linarith)
  · have hlt : ⌊totalScore s + 1/2⌋ < 101 := Int.floor_lt.mpr (by push_cast; linarith)
    omega

/-- Witness for C2 at a concrete snapshot. -/
theorem calculateRiskScore_range_witness :
    0 ≤ (calculateRiskScore ⟨⟨3, 10, []⟩, ⟨1, 2⟩, ⟨-5, 15⟩⟩).1 ∧
    (calculateRiskScore ⟨⟨3, 10, []⟩, ⟨1, 2⟩, ⟨-5, 15⟩⟩).1 ≤ 100 :=
  calculateRiskScore_range ⟨⟨3, 10, []⟩, ⟨1, 2⟩, ⟨-5, 15⟩⟩
    (by norm_num) (by norm_num) (by norm_num) (by norm_num)

/-- C3: when the news total count is 0 the news negative-ratio contribution
is 0, and when the social total count is 0 the social sub-score is 0; both
are total functions of the snapshot in this embedding, so the engine always
returns a well-defined rational value (no NaN, no division error). -/
theorem zero_total_subscores (s : AnalysisStats) :
    (s.news.totalCount = 0 → negScore s = 0) ∧
    (s.social.totalCount = 0 → socialScore s = 0) := by
  constructor
  · intro h
    unfold negScore
    rw [h]
    norm_num
  · intro h
    unfold socialScore
    rw [h]
    norm_num

/-- Witness for C3 at a concrete snapshot with both totals 0. -/
theorem zero_total_subscores_witness :
    negScore ⟨⟨0, 0, ["hack"]⟩, ⟨0, 0⟩, ⟨5, 5⟩⟩ = 0 ∧
    socialScore ⟨⟨0, 0, ["hack"]⟩, ⟨0, 0⟩, ⟨5, 5⟩⟩ = 0 :=
  ⟨(zero_total_subscores ⟨⟨0, 0, ["hack"]⟩, ⟨0, 0⟩, ⟨5, 5⟩⟩).1 rfl,
   (zero_total_subscores ⟨⟨0, 0, ["hack"]⟩, ⟨0, 0⟩, ⟨5, 5⟩⟩).2 rfl⟩

/-- C5: a rule with an empty condition list never matches any asset,
whatever the asset state, the enabled flag and the scope are; matching is
explicitly false, never vacuously true. -/
theorem empty_conditions_never_match (rule : WatchRule) (coin : CoinData)
    (h : rule.conditions = []) : checkWatchConditions rule coin = false := by
  unfold checkWatchConditions
  rw [h]
  simp

/-- Witness for C5: a concrete enabled, all-scope rule without conditions
does not match a concrete asset. -/
theorem empty_conditions_never_match_witness :
    checkWatchConditions ⟨"w1", "empty rule", true, none, [], "t0", none⟩
      ⟨"BTC", "Bitcoin", some 7, none⟩ = false :=
  empty_conditions_never_match ⟨"w1", "empty rule", true, none, [], "t0", none⟩
    ⟨"BTC", "Bitcoin", some 7, none⟩ rfl

/-- C7: the equality operator matches exactly when the absolute difference
between actual and threshold is below the 0.01 tolerance; in particular a
difference of exactly 0.5 does not match. -/
theorem compareValues_eq_epsilon (a t : ℚ) :
    (compareValues a .eq t = true ↔ |a - t| < 1/100) ∧
    (|a - t| = 1/2 → compareValues a .eq t = false) := by
  constructor
  · simp [compareValues]
  · intro h
    simp only [compareValues, decide_eq_false_iff_not, not_lt, h]
    norm_num

/-- Witness for C7: an actual value 0.5 away from the threshold does not
match under the equality operator. -/
theorem compareValues_eq_epsilon_witness :
    compareValues (1/2 : ℚ) .eq 0 = false :=
  (compareValues_eq_epsilon (1/2) 0).2 (by norm_num)

/-- C9: a rule whose `coinSymbols` field is the explicit empty array is
evaluated exactly as a rule whose scope is "all coins" (`coinSymbols`
absent): the empty set does not mean "matches nothing". -/
theorem empty_symbol_array_is_all_coins (rule : WatchRule) (coin : CoinData)
    (h : rule.coinSymbols = some []) :
    checkWatchConditions rule coin =
      checkWatchConditions { rule with coinSymbols := none } coin := by
  obtain ⟨i, n, e, cs, conds, ca, lt⟩ := rule
  simp only [WatchRule.mk.injEq] at h ⊢
  subst h
  unfold checkWatchConditions scopeExcludes
  simp

/-- Witness for C9 at a concrete rule and asset. -/
theorem empty_symbol_array_is_all_coins_witness :
    checkWatchConditions
        ⟨"w2", "scoped", true, some [], [⟨.price_change, .gt, .num 5, none⟩], "t0", none⟩
        ⟨"ETH", "Ethereum", some 9, none⟩ =
      checkWatchConditions
        ⟨"w2", "scoped", true, none, [⟨.price_change, .gt, .num 5, none⟩], "t0", none⟩
        ⟨"ETH", "Ethereum", some 9, none⟩ :=
  empty_symbol_array_is_all_coins
    ⟨"w2", "scoped", true, some [], [⟨.price_change, .gt, .num 5, none⟩], "t0", none⟩
    ⟨"ETH", "Ethereum", some 9, none⟩ rfl

/-- C10: every condition of every kind evaluates to false on an asset whose
analysis, or whose analysis stats, is absent; consequently a rule with at
least one condition never matches such an asset. -/
theorem missing_assessment_never_matches (coin : CoinData)
    (h : coin.analysis = none ∨ ∃ a, coin.analysis = some a ∧ a.stats = none) :
    (∀ condition, checkCondition condition coin = false) ∧
    (∀ rule, rule.conditions ≠ [] → checkWatchConditions rule coin = false) := by
  have hc : ∀ condition, checkCondition condition coin = false := by
    intro condition
    rcases h with h | ⟨a, ha, hs⟩
    · unfold checkCondition
      rw [h]
    · unfold checkCondition
      simp only [ha, hs]
  refine ⟨hc, ?_⟩
  intro rule hne
  unfold checkWatchConditions
  split_ifs with h1 h2 h3
  · rfl
  · rfl
  · rfl
  · cases hcs : rule.conditions with
    | nil => exact absurd hcs hne
    | cons c cs => simp [hcs, List.all_cons, hc]

/-- Witness for C10: a concrete condition and a concrete one-condition rule
both fail on an asset that has no analysis. -/
theorem missing_assessment_never_matches_witness :
    checkCondition ⟨.price_change, .gt, .num 5, none⟩ ⟨"BTC", "Bitcoin", some 7, none⟩ = false ∧
    checkWatchConditions
        ⟨"w3", "one condition", true, none, [⟨.price_change, .gt, .num 5, none⟩], "t0", none⟩
        ⟨"BTC", "Bitcoin", some 7, none⟩ = false :=
  ⟨(missing_assessment_never_matches ⟨"BTC", "Bitcoin", some 7, none⟩ (Or.inl rfl)).1
      ⟨.price_change, .gt, .num 5, none⟩,
   (missing_assessment_never_matches ⟨"BTC", "Bitcoin", some 7, none⟩ (Or.inl rfl)).2
      ⟨"w3", "one condition", true, none, [⟨.price_change, .gt, .num 5, none⟩], "t0", none⟩
      (by simp)⟩

/-- C8: a risk-score condition is false when the assessment score is absent
or the -1 unavailable sentinel, and otherwise compares the score with the
condition operator; a risk-level condition maps levels to the ordinals
LOW = 1, MEDIUM = 2, HIGH = 3, EXTREME = 4 and compares ordinals, and is
false when the level is missing (absent or the falsy empty string) or the
assessment is unavailable (the engine encodes unavailability as level LOW
together with the -1 score sentinel). -/
theorem risk_conditions_semantics (condition : WatchCondition) (coin : CoinData)
    (analysis : AIAnalysisResult) (stats : AnalysisStats)
    (ha : coin.analysis = some analysis) (hs : analysis.stats = some stats) :
    (condition.type = .risk_score →
      ((analysis.riskScore = none ∨ analysis.riskScore = some (-1)) →
        checkCondition condition coin = false) ∧
      (∀ sc, analysis.riskScore = some sc → sc ≠ -1 →
        checkCondition condition coin =
          compareValues sc condition.operator condition.value.asNumber)) ∧
    (condition.type = .risk_level →
      (getRiskLevelValue "LOW" = 1 ∧ getRiskLevelValue "MEDIUM" = 2 ∧
       getRiskLevelValue "HIGH" = 3 ∧ getRiskLevelValue "EXTREME" = 4) ∧
      ((analysis.riskLevel = none ∨ analysis.riskLevel = some "") →
        checkCondition condition coin = false) ∧
      (∀ lvl, analysis.riskLevel = some lvl →
        lvl = "LOW" → analysis.riskScore = some (-1) →
        checkCondition condition coin = false) ∧
      (∀ lvl, analysis.riskLevel = some lvl → lvl ≠ "" →
        ¬(lvl = "LOW" ∧ analysis.riskScore = some (-1)) →
        checkCondition condition coin =
          compareValues (getRiskLevelValue lvl) condition.operator
            (getRiskLevelValue condition.value.asString))) := by
  constructor
  · intro htype
    have hck : checkCondition condition coin =
        (match analysis.riskScore with
         | none => false
         | some sc =>
           if sc = -1 then false
           else compareValues sc condition.operator condition.value.asNumber) := by
      unfold checkCondition
      simp only [ha, hs, htype]
    constructor
    · rintro (hn | hneg)
      · rw [hck]
        simp only [hn]
      · rw [hck]
        simp [hneg]
    · intro sc hsc hne
      rw [hck]
      simp only [hsc, if_neg hne]
  · intro htype
    have hck : checkCondition condition coin =
        (match analysis.riskLevel with
         | none => false
         | some lvl =>
           if lvl = "" then false
           else if lvl = "LOW" ∧ analysis.riskScore = some (-1) then false
           else
             compareValues (getRiskLevelValue lvl) condition.operator
               (getRiskLevelValue condition.value.asString)) := by
      unfold checkCondition
      simp only [ha, hs, htype]
    refine ⟨⟨by simp [getRiskLevelValue], by simp [getRiskLevelValue],
             by simp [getRiskLevelValue], by simp [getRiskLevelValue]⟩, ?_, ?_, ?_⟩
    · rintro (hn | hempty)
      · rw [hck]
        simp only [hn]
      · rw [hck]
        simp [hempty]
    · intro lvl hlvl hlow hscore
      rw [hck]
      subst hlow
      simp only [hlvl, hscore]
      norm_num
    · intro lvl hlvl hne hsafe
      rw [hck]
      simp only [hlvl, if_neg hne, if_neg hsafe]

/-- Witness for C8: a concrete risk-score condition on an asset whose
assessment carries score 80 evaluates by numeric comparison against the
threshold 50 and matches. -/
theorem risk_conditions_semantics_witness :
    checkCondition ⟨.risk_score, .ge, .num 50, none⟩
      ⟨"BTC", "Bitcoin", some 2,
       some ⟨"STABLE", some "HIGH", some 80, some ⟨⟨0, 0, []⟩, ⟨0, 0⟩, ⟨0, 0⟩⟩⟩⟩ = true := by
  have h := ((risk_conditions_semantics ⟨.risk_score, .ge, .num 50, none⟩
      ⟨"BTC", "Bitcoin", some 2,
       some ⟨"STABLE", some "HIGH", some 80, some ⟨⟨0, 0, []⟩, ⟨0, 0⟩, ⟨0, 0⟩⟩⟩⟩
      ⟨"STABLE", some "HIGH", some 80, some ⟨⟨0, 0, []⟩, ⟨0, 0⟩, ⟨0, 0⟩⟩⟩
      ⟨⟨0, 0, []⟩, ⟨0, 0⟩, ⟨0, 0⟩⟩ rfl rfl).1 rfl).2 80 rfl (by norm_num)
  rw [h]
  simp only [compareValues, WatchValue.asNumber]
  norm_num

/-- C4: de-duplication of notifications.  If a rule fires for an asset at
time t₁ (timestamps in milliseconds), then re-evaluating the updated rule
within 60 seconds of t₁ emits no new notification — for the same asset and
indeed for any asset, since the cooldown is stored per rule — and once 60
seconds or more have elapsed the rule fires again provided its conditions
still match. -/
theorem cooldown_dedup (rule : WatchRule) (coin₁ coin₂ : CoinData) (t₁ t₂ : ℚ)
    (h1 : (checkRuleForCoin rule coin₁ t₁).1 = true) :
    (0 ≤ t₂ - t₁ → t₂ - t₁ < 60000 →
      (checkRuleForCoin (checkRuleForCoin rule coin₁ t₁).2 coin₂ t₂).1 = false) ∧
    (60000 ≤ t₂ - t₁ →
      checkWatchConditions (checkRuleForCoin rule coin₁ t₁).2 coin₂ = true →
      (checkRuleForCoin (checkRuleForCoin rule coin₁ t₁).2 coin₂ t₂).1 = true) := by
  have hstep : checkWatchConditions rule coin₁ = true ∧
      (checkRuleForCoin rule coin₁ t₁).2 = { rule with lastTriggered := some t₁ } := by
    unfold checkRuleForCoin at h1 ⊢
    by_cases hc : checkWatchConditions rule coin₁ = true
    · by_cases hd : cooldownSuppressed rule.lastTriggered t₁ = true
      · simp [hc, hd] at h1
      · simp only [Bool.not_eq_true] at hd
        simp [hc, hd]
    · simp only [Bool.not_eq_true] at hc
      simp [hc] at h1
  obtain ⟨hc, hrule⟩ := hstep
  rw [hrule]
  constructor
  · intro hge hlt
    have hsup : cooldownSuppressed (some t₁) t₂ = true := by
      unfold cooldownSuppressed
      simp only [decide_eq_true_eq]
      rw [div_lt_one (by norm_num : (0 : ℚ) < 1000 * 60)]
      linarith
    unfold checkRuleForCoin
    by_cases hc2 : checkWatchConditions { rule with lastTriggered := some t₁ } coin₂ = true
    · simp [hc2, hsup]
    · simp only [Bool.not_eq_true] at hc2
      simp [hc2]
  · intro hge hc2
    have hsup : cooldownSuppressed (some t₁) t₂ = false := by
      unfold cooldownSuppressed
      simp only [decide_eq_false_iff_not]
      rw [div_lt_one (by norm_num : (0 : ℚ) < 1000 * 60)]
      linarith
    unfold checkRuleForCoin
    simp [hc2, hsup]

/-- Witness for C4: a concrete rule fires at t = 0 for an asset with a 7
percent price rise, and re-evaluating 30 seconds later emits nothing. -/
theorem cooldown_dedup_witness :
    (checkRuleForCoin
      (checkRuleForCoin
        ⟨"w4", "price watch", true, none, [⟨.price_change, .gt, .num 5, none⟩], "t0", none⟩
        ⟨"BTC", "Bitcoin", some 7,
         some ⟨"RISING", some "LOW", some 10, some ⟨⟨0, 0, []⟩, ⟨0, 0⟩, ⟨0, 0⟩⟩⟩⟩ 0).2
      ⟨"BTC", "Bitcoin", some 7,
       some ⟨"RISING", some "LOW", some 10, some ⟨⟨0, 0, []⟩, ⟨0, 0⟩, ⟨0, 0⟩⟩⟩⟩ 30000).1 = false :=
  (cooldown_dedup
    ⟨"w4", "price watch", true, none, [⟨.price_change, .gt, .num 5, none⟩], "t0", none⟩
    ⟨"BTC", "Bitcoin", some 7,
     some ⟨"RISING", some "LOW", some 10, some ⟨⟨0, 0, []⟩, ⟨0, 0⟩, ⟨0, 0⟩⟩⟩⟩
    ⟨"BTC", "Bitcoin", some 7,
     some ⟨"RISING", some "LOW", some 10, some ⟨⟨0, 0, []⟩, ⟨0, 0⟩, ⟨0, 0⟩⟩⟩⟩ 0 30000
    (by norm_num [checkRuleForCoin, checkWatchConditions, scopeExcludes, checkCondition,
      compareValues, cooldownSuppressed, WatchValue.asNumber])).1
    (by norm_num) (by norm_num)

/-- C6: with both the news and the social responses missing, the analysis
is the explicit unavailable result (`none`, the sentinel `null` of the
source) rather than a fabricated numeric score; with only the news response
present the analysis proceeds and carries the numeric upstream score, which
is distinct from the -1 sentinel. -/
theorem analyzeCoinSignal_unavailable_policy :
    (∀ (coin : CoinData) (riskData : Option RiskScoreResponse)
        (coinMarketData : Option CoinMarketData),
      analyzeCoinSignal coin none none riskData coinMarketData = none) ∧
    (∃ r : AIAnalysisResult,
      analyzeCoinSignal ⟨"BTC", "Bitcoin", some 1, none⟩
        (some ⟨10, [⟨"negative", 4⟩]⟩) none (some ⟨some 55, some "MEDIUM"⟩) none = some r ∧
      r.riskScore = some 55 ∧ r.riskScore ≠ some (-1)) := by
  constructor
  · intro coin riskData coinMarketData
    unfold analyzeCoinSignal
    simp
  · refine ⟨⟨"STABLE", some "MEDIUM", some 55, some ⟨⟨4, 10, []⟩, ⟨0, 0⟩, ⟨0, 0⟩⟩⟩, ?_, rfl, ?_⟩
    · norm_num [analyzeCoinSignal, negativeCountOf, levelOfScore]
      intro h
      simp at h
    · simp
      norm_num

/-- Witness for C6: a concrete asset with all four upstream fetches failed
is analyzed to the unavailable result. -/
theorem analyzeCoinSignal_unavailable_policy_witness :
    analyzeCoinSignal ⟨"ETH", "Ethereum", some 1, none⟩ none none none none = none :=
  analyzeCoinSignal_unavailable_policy.1 ⟨"ETH", "Ethereum", some 1, none⟩ none none

end CoinGuard
